import Mathlib

/-!
# UnitUtils.js: unit conversions, the `convertValue` dispatcher, `formatValue` and the unit
label tables

A shallow embedding of `Qt_Oil_NewContent/Common/Utils/UnitUtils.js`.

* A measurement value is a JavaScript number.  Numbers are embedded as rationals, so every
  arithmetic operator is the exact one; the rounding of IEEE doubles is outside the embedding.
* A unit symbol and a quantity-kind key are JavaScript strings, embedded as `String`; `===`
  on two strings is equality of strings.
* What a label function returns is a JavaScript value, because `obj[key] || ""` returns
  whatever `obj[key]` is when that is truthy: see `JSValue`.
* `formatValue` returns a string or throws: its result is an `Except`. The value it formats is
  a primitive (`JSPrimitive`), its optional `decimals` a number (`JSNumber`) or `none`. The
  runtime functions it calls, `parseFloat` and `toFixed`, follow the ECMAScript standard; what
  differs between engines is a field of `Engine`.
-/

namespace UnitUtils

/-! ## Conversion functions (source lines 4 to 71) -/

/-- Source: `function feetToMeters(feet) { return feet * 0.3048; }`. -/
def feetToMeters (feet : ℚ) : ℚ := feet * 0.3048

/-- Source: `function metersToFeet(meters) { return meters / 0.3048; }`. -/
def metersToFeet (meters : ℚ) : ℚ := meters / 0.3048

/-- Source: `function inchesToMm(inches) { return inches * 25.4; }`. -/
def inchesToMm (inches : ℚ) : ℚ := inches * 25.4

/-- Source: `function mmToInches(mm) { return mm / 25.4; }`. -/
def mmToInches (mm : ℚ) : ℚ := mm / 25.4

/-- Source: `function psiToMPa(psi) { return psi / 145.038; }`. -/
def psiToMPa (psi : ℚ) : ℚ := psi / 145.038

/-- Source: `function mpaToPsi(mpa) { return mpa * 145.038; }`. -/
def mpaToPsi (mpa : ℚ) : ℚ := mpa * 145.038

/-- Source: `function fahrenheitToCelsius(f) { return (f - 32) * 5 / 9; }`; `*` and `/`
associate to the left. -/
def fahrenheitToCelsius (f : ℚ) : ℚ := (f - 32) * 5 / 9

/-- Source: `function celsiusToFahrenheit(c) { return c * 9 / 5 + 32; }`. -/
def celsiusToFahrenheit (c : ℚ) : ℚ := c * 9 / 5 + 32

/-- Source: `function bblToM3(bbl) { return bbl * 0.159; }`. -/
def bblToM3 (bbl : ℚ) : ℚ := bbl * 0.159

/-- Source: `function m3ToBbl(m3) { return m3 / 0.159; }`. -/
def m3ToBbl (m3 : ℚ) : ℚ := m3 / 0.159

/-- Source: `function lbft3ToKgm3(lbft3) { return lbft3 * 16.018; }`. -/
def lbft3ToKgm3 (lbft3 : ℚ) : ℚ := lbft3 * 16.018

/-- Source: `function kgm3ToLbft3(kgm3) { return kgm3 / 16.018; }`. -/
def kgm3ToLbft3 (kgm3 : ℚ) : ℚ := kgm3 / 16.018

/-- Source: `function hpToKw(hp) { return hp * 0.746; }`. -/
def hpToKw (hp : ℚ) : ℚ := hp * 0.746

/-- Source: `function kwToHp(kw) { return kw / 0.746; }`. -/
def kwToHp (kw : ℚ) : ℚ := kw / 0.746

/-- Source: `function lbsToNewtons(lbs) { return lbs * 4.448; }`. -/
def lbsToNewtons (lbs : ℚ) : ℚ := lbs * 4.448

/-- Source: `function newtonsToLbs(newtons) { return newtons / 4.448; }`. -/
def newtonsToLbs (newtons : ℚ) : ℚ := newtons / 4.448

/-! ## The dispatcher (source lines 73 to 106) -/

/-- Source: `function convertValue(value, fromUnit, toUnit)`: the identity check, then the
fourteen `if (fromUnit === a && toUnit === b) return f(value);` lines in source order, then
`return value;`. -/
def convertValue (value : ℚ) (fromUnit toUnit : String) : ℚ :=
  if fromUnit = toUnit then value
  else if fromUnit = "ft" ∧ toUnit = "m" then feetToMeters value
  else if fromUnit = "m" ∧ toUnit = "ft" then metersToFeet value
  else if fromUnit = "in" ∧ toUnit = "mm" then inchesToMm value
  else if fromUnit = "mm" ∧ toUnit = "in" then mmToInches value
  else if fromUnit = "psi" ∧ toUnit = "MPa" then psiToMPa value
  else if fromUnit = "MPa" ∧ toUnit = "psi" then mpaToPsi value
  else if fromUnit = "°F" ∧ toUnit = "°C" then fahrenheitToCelsius value
  else if fromUnit = "°C" ∧ toUnit = "°F" then celsiusToFahrenheit value
  else if fromUnit = "bbl/d" ∧ toUnit = "m³/d" then bblToM3 value
  else if fromUnit = "m³/d" ∧ toUnit = "bbl/d" then m3ToBbl value
  else if fromUnit = "HP" ∧ toUnit = "kW" then hpToKw value
  else if fromUnit = "kW" ∧ toUnit = "HP" then kwToHp value
  else if fromUnit = "lbs" ∧ toUnit = "N" then lbsToNewtons value
  else if fromUnit = "N" ∧ toUnit = "lbs" then newtonsToLbs value
  else value

/-- The fourteen (source, target) pairs that `convertValue` tests, in source order. -/
def wiredPairs : List (String × String) :=
  [("ft", "m"), ("m", "ft"), ("in", "mm"), ("mm", "in"), ("psi", "MPa"), ("MPa", "psi"),
   ("°F", "°C"), ("°C", "°F"), ("bbl/d", "m³/d"), ("m³/d", "bbl/d"), ("HP", "kW"),
   ("kW", "HP"), ("lbs", "N"), ("N", "lbs")]

/-! ## The formulas of the specification's table (section 4.1)

One definition for each cell of the table, written from the words of the table and not from
the code.  The temperature formulas are read the textbook way, `(f − 32) × 5/9` as the
product of `f − 32` with the fraction `5/9`, and `c × 9/5 + 32` likewise. -/

/-- The JavaScript values that reading a property of a label table can give: `undefined`
(there is no such property), a string (an entry of the table), or an object of the runtime
(a property inherited from `Object.prototype`), named by its standard name. -/
inductive JSValue where
  | undefined
  | str (s : String)
  | builtin (name : String)
  deriving DecidableEq

/-- ECMAScript ToBoolean: `undefined` and the empty string are falsy, any other string and
every object (a function is an object) are truthy. -/
def JSValue.toBoolean : JSValue → Bool
  | .undefined => false
  | .str s => !(s == "")
  | .builtin _ => true

/-- The operator `a || b`: `a` when `a` is truthy, else `b`. -/
def JSValue.or (a b : JSValue) : JSValue := if a.toBoolean then a else b

/-- The properties of `Object.prototype`, the prototype of every object literal: the ones of
the ECMAScript standard (`constructor`, `hasOwnProperty`, `isPrototypeOf`,
`propertyIsEnumerable`, `toLocaleString`, `toString`, `valueOf`) and of its annex B
(`__proto__`, which on an object literal reads as `Object.prototype` itself, and the four
getter and setter helpers). All of them are objects. -/
def objectPrototype : List (String × JSValue) :=
  [("constructor", .builtin "Object"),
   ("hasOwnProperty", .builtin "Object.prototype.hasOwnProperty"),
   ("isPrototypeOf", .builtin "Object.prototype.isPrototypeOf"),
   ("propertyIsEnumerable", .builtin "Object.prototype.propertyIsEnumerable"),
   ("toLocaleString", .builtin "Object.prototype.toLocaleString"),
   ("toString", .builtin "Object.prototype.toString"),
   ("valueOf", .builtin "Object.prototype.valueOf"),
   ("__proto__", .builtin "Object.prototype"),
   ("__defineGetter__", .builtin "Object.prototype.__defineGetter__"),
   ("__defineSetter__", .builtin "Object.prototype.__defineSetter__"),
   ("__lookupGetter__", .builtin "Object.prototype.__lookupGetter__"),
   ("__lookupSetter__", .builtin "Object.prototype.__lookupSetter__")]

/-- The read `obj[key]` on an object literal with the own properties `own`: the own property
of that name when there is one, else the property of that name of `Object.prototype`, else
`undefined`. No table of the source repeats a key, so the first entry of a name is the only
one. -/
def getProperty (own : List (String × JSValue)) (key : String) : JSValue :=
  match own.lookup key with
  | some v => v
  | none =>
    match objectPrototype.lookup key with
    | some v => v
    | none => .undefined

/-! ## Unit labels (source lines 114 to 182) -/

/-- The nine quantity kinds, the keys of every label table. -/
def quantityKinds : List String :=
  ["depth", "diameter", "pressure", "temperature", "flow", "density", "power", "force",
   "weight"]

/-- Source: `var metricUnits = { ... }` in `getUnitLabel`. -/
def metricUnits : List (String × JSValue) :=
  [("depth", .str "m"), ("diameter", .str "mm"), ("pressure", .str "MPa"),
   ("temperature", .str "°C"), ("flow", .str "m³/d"), ("density", .str "kg/m³"),
   ("power", .str "kW"), ("force", .str "N"), ("weight", .str "kg")]

/-- Source: `var imperialUnits = { ... }` in `getUnitLabel`. -/
def imperialUnits : List (String × JSValue) :=
  [("depth", .str "ft"), ("diameter", .str "in"), ("pressure", .str "psi"),
   ("temperature", .str "°F"), ("flow", .str "bbl/d"), ("density", .str "lb/ft³"),
   ("power", .str "HP"), ("force", .str "lbs"), ("weight", .str "lbs")]

/-- Source: `function getUnitLabel(unitType, isMetric)`:
`return metricUnits[unitType] || "";` when `isMetric`, else
`return imperialUnits[unitType] || "";`. -/
def getUnitLabel (unitType : String) (isMetric : Bool) : JSValue :=
  if isMetric then (getProperty metricUnits unitType).or (.str "")
  else (getProperty imperialUnits unitType).or (.str "")

/-- Source: `var metricTextCN = { ... }` in `getUnitDisplayText`. -/
def metricTextCN : List (String × JSValue) :=
  [("depth", .str "米"), ("diameter", .str "毫米"), ("pressure", .str "兆帕"),
   ("temperature", .str "摄氏度"), ("flow", .str "立方米/天"), ("density", .str "千克/立方米"),
   ("power", .str "千瓦"), ("force", .str "牛顿"), ("weight", .str "千克")]

/-- Source: `var imperialTextCN = { ... }` in `getUnitDisplayText`. -/
def imperialTextCN : List (String × JSValue) :=
  [("depth", .str "英尺"), ("diameter", .str "英寸"), ("pressure", .str "磅每平方英寸"),
   ("temperature", .str "华氏度"), ("flow", .str "桶每天"), ("density", .str "磅每立方英尺"),
   ("power", .str "马力"), ("force", .str "磅力"), ("weight", .str "磅")]

/-- Source: `function getUnitDisplayText(unitType, isMetric, isChinese)`: the Chinese table of
the unit system with the fallback `|| ""` when `isChinese`, else `getUnitLabel` of that
system. -/
def getUnitDisplayText (unitType : String) (isMetric isChinese : Bool) : JSValue :=
  if isMetric then
    if isChinese then (getProperty metricTextCN unitType).or (.str "")
    else getUnitLabel unitType true
  else
    if isChinese then (getProperty imperialTextCN unitType).or (.str "")
    else getUnitLabel unitType false

/-! ## A dispatcher over a table of pairs

The ladder of `convertValue` written over a list, to compare `convertValue` with a dispatcher
that tests the same pairs in another order. -/

/-- The tests `if (fromUnit === a && toUnit === b) return f(value);`, one for each entry
`((a, b), f)` of the table and in the order of the table, then `return value;`. -/
def dispatchLadder : List ((String × String) × (ℚ → ℚ)) → ℚ → String → String → ℚ
  | [], value, _, _ => value
  | ((a, b), f) :: rest, value, fromUnit, toUnit =>
    if fromUnit = a ∧ toUnit = b then f value else dispatchLadder rest value fromUnit toUnit

/-- A dispatcher shaped as `convertValue`: the identity test first, then the ladder over the
table. -/
def dispatchWith (table : List ((String × String) × (ℚ → ℚ))) (value : ℚ)
    (fromUnit toUnit : String) : ℚ :=
  if fromUnit = toUnit then value else dispatchLadder table value fromUnit toUnit

/-- The fourteen tests of `convertValue` in source order, each with the function it calls. -/
def wiredTable : List ((String × String) × (ℚ → ℚ)) :=
  [(("ft", "m"), feetToMeters), (("m", "ft"), metersToFeet),
   (("in", "mm"), inchesToMm), (("mm", "in"), mmToInches),
   (("psi", "MPa"), psiToMPa), (("MPa", "psi"), mpaToPsi),
   (("°F", "°C"), fahrenheitToCelsius), (("°C", "°F"), celsiusToFahrenheit),
   (("bbl/d", "m³/d"), bblToM3), (("m³/d", "bbl/d"), m3ToBbl),
   (("HP", "kW"), hpToKw), (("kW", "HP"), kwToHp),
   (("lbs", "N"), lbsToNewtons), (("N", "lbs"), newtonsToLbs)]

/-- Two pairs share a unit symbol when a component of one is a component of the other. -/
def shareSymbol (p q : String × String) : Bool :=
  p.1 == q.1 || p.1 == q.2 || p.2 == q.1 || p.2 == q.2

/-! ## `formatValue` (source lines 108 to 112)

`formatValue` is two calls into the JavaScript runtime, `parseFloat` and
`Number.prototype.toFixed`. Both are embedded after their definition in the ECMAScript
standard, over exact rationals. -/

/-- A JavaScript number: a finite one (a rational in this embedding), NaN, or an infinity. -/
inductive JSNumber where
  | finite (q : ℚ)
  | nan
  | posInf
  | negInf
  deriving DecidableEq

/-- The primitive values a caller can pass as `value`. -/
inductive JSPrimitive where
  | undefined
  | null
  | bool (b : Bool)
  | num (n : JSNumber)
  | str (s : String)
  deriving DecidableEq

/-- The exception `toFixed` can throw. -/
inductive JSError where
  | rangeError
  deriving DecidableEq

/-- What the embedding takes from the engine as given: the largest count of fraction digits
`toFixed` accepts (20 up to ECMAScript 2017, 100 since; never less than 20), and the text
ToString gives for a finite number that is at least 10^21, which the standard defines on
doubles only. -/
structure Engine where
  maxFractionDigits : ℕ
  numberToString : ℚ → String
  twenty_le : 20 ≤ maxFractionDigits

/-- StrWhiteSpaceChar: the white space and line terminator code points that `parseFloat`
skips at the start of its input. -/
def isStrWhiteSpaceChar (c : Char) : Bool :=
  [0x09, 0x0A, 0x0B, 0x0C, 0x0D, 0x20, 0xA0, 0x1680, 0x2000, 0x2001, 0x2002, 0x2003, 0x2004,
   0x2005, 0x2006, 0x2007, 0x2008, 0x2009, 0x200A, 0x2028, 0x2029, 0x202F, 0x205F, 0x3000,
   0xFEFF].contains c.toNat

/-- The value of one decimal digit. -/
def digitValue (c : Char) : ℕ := c.toNat - 48

/-- The value of a run of decimal digits, 0 for the empty run. -/
def digitsValue (ds : List Char) : ℕ := ds.foldl (fun n c => 10 * n + digitValue c) 0

/-- The digits of an exponent part with their sign applied; with no digit there is no
exponent part, and the literal ends before the `e`. -/
def signedExponent (sign : ℤ) (cs : List Char) : ℤ :=
  if cs.takeWhile Char.isDigit = [] then 0 else sign * digitsValue (cs.takeWhile Char.isDigit)

/-- ExponentPart (optional): `e` or `E`, an optional sign, at least one digit. What follows
the digits is ignored: `parseFloat` reads the longest prefix that is a literal. -/
def parseExponent : List Char → ℤ
  | [] => 0
  | c :: rest =>
    if c = 'e' ∨ c = 'E' then
      match rest with
      | '+' :: ds => signedExponent 1 ds
      | '-' :: ds => signedExponent (-1) ds
      | ds => signedExponent 1 ds
    else 0

/-- The longest prefix that is a StrUnsignedDecimalLiteral, as its value: `Infinity`, or
digits with an optional fraction and exponent, or a fraction that starts with the point.
`none` when no prefix is a literal. -/
def parseUnsignedDecimal (cs : List Char) : Option JSNumber :=
  if "Infinity".toList.isPrefixOf cs then some .posInf
  else
    match cs.dropWhile Char.isDigit with
    | '.' :: rest =>
      if cs.takeWhile Char.isDigit = [] ∧ rest.takeWhile Char.isDigit = [] then none
      else some (.finite
        ((digitsValue (cs.takeWhile Char.isDigit)
          + (digitsValue (rest.takeWhile Char.isDigit) : ℚ)
            / 10 ^ (rest.takeWhile Char.isDigit).length)
          * 10 ^ parseExponent (rest.dropWhile Char.isDigit)))
    | rest =>
      if cs.takeWhile Char.isDigit = [] then none
      else some (.finite (digitsValue (cs.takeWhile Char.isDigit) * 10 ^ parseExponent rest))

/-- The negation of a number. -/
def JSNumber.neg : JSNumber → JSNumber
  | .finite q => .finite (-q)
  | .nan => .nan
  | .posInf => .negInf
  | .negInf => .posInf

/-- The function `parseFloat` on a string: skip leading white space, read an optional sign and
the longest prefix that is a decimal literal; NaN when there is none. -/
def parseFloatString (s : String) : JSNumber :=
  match s.toList.dropWhile isStrWhiteSpaceChar with
  | '+' :: cs => (parseUnsignedDecimal cs).getD .nan
  | '-' :: cs => ((parseUnsignedDecimal cs).map JSNumber.neg).getD .nan
  | cs => (parseUnsignedDecimal cs).getD .nan

/-- The function `parseFloat`: its argument is converted to a string and that is parsed. A
number converts to a text that parses back to the number; `undefined`, `null` and the
booleans convert to their names. -/
def parseFloat : JSPrimitive → JSNumber
  | .num n => n
  | .str s => parseFloatString s
  | .undefined => parseFloatString "undefined"
  | .null => parseFloatString "null"
  | .bool true => parseFloatString "true"
  | .bool false => parseFloatString "false"

/-- ToInteger, as `toFixed` applies it to its argument: NaN gives 0, a finite number is
truncated toward zero, an infinity stays infinite (`none`) and is outside every range. -/
def toInteger : JSNumber → Option ℤ
  | .nan => some 0
  | .finite q => some (if 0 ≤ q then ⌊q⌋ else -⌊-q⌋)
  | .posInf => none
  | .negInf => none

/-- The decimal digits of n with the point before the last f of them, padded with zeros on
the left to f + 1 digits: steps 8.b to 8.d of `toFixed`. -/
def fixedDigits (n f : ℕ) : String :=
  let m := Nat.toDigits 10 n
  if f = 0 then String.mk m
  else
    let m := if m.length ≤ f then List.replicate (f + 1 - m.length) '0' ++ m else m
    String.mk (m.take (m.length - f) ++ '.' :: m.drop (m.length - f))

/-- The method `Number.prototype.toFixed(fractionDigits)` of the number x: a RangeError for a
count of digits below 0 or above the maximum of the engine; else "NaN" for NaN; else the sign
and, for an absolute value of at least 10^21, ToString of it, else the digits of the integer n
that makes n / 10^f nearest to the absolute value (the larger n of two), with the point. -/
def toFixed (e : Engine) (x : JSNumber) (fractionDigits : JSNumber) : Except JSError String :=
  match toInteger fractionDigits with
  | none => .error .rangeError
  | some f =>
    if f < 0 ∨ (e.maxFractionDigits : ℤ) < f then .error .rangeError
    else
      match x with
      | .nan => .ok "NaN"
      | .posInf => .ok "Infinity"
      | .negInf => .ok "-Infinity"
      | .finite q =>
        let s := if q < 0 then "-" else ""
        let a := if q < 0 then -q else q
        if 10 ^ 21 ≤ a then .ok (s ++ e.numberToString a)
        else .ok (s ++ fixedDigits ⌊a * 10 ^ f.toNat + 1 / 2⌋.toNat f.toNat)

/-- Source: `function formatValue(value, decimals) { if (typeof decimals === "undefined")
decimals = 2; return parseFloat(value).toFixed(decimals); }`. An omitted or undefined
`decimals` is `none`. -/
def formatValue (e : Engine) (value : JSPrimitive) (decimals : Option JSNumber) :
    Except JSError String :=
  let decimals := match decimals with
    | none => JSNumber.finite 2
    | some d => d
  toFixed e (parseFloat value) decimals

/-- The counts of digits that `toFixed` accepts from `formatValue`: `decimals` omitted, NaN,
or a finite number whose integer part lies between 0 and the maximum of the engine, that is a
number above -1 and below the maximum plus 1. -/
def validDecimals (e : Engine) : Option JSNumber → Prop
  | none => True
  | some .nan => True
  | some (.finite q) => -1 < q ∧ q < e.maxFractionDigits + 1
  | some .posInf => False
  | some .negInf => False

/-- An engine to evaluate at, with the limit of 20 digits of ECMAScript 5 to 2017. The text
for a number from 10^21 on is left empty: no evaluation below reaches it. -/
def engine20 : Engine := ⟨20, fun _ => "", le_refl 20⟩

/-- An engine to evaluate at, with the limit of 100 digits of ECMAScript 2018 and later. -/
def engine100 : Engine := ⟨100, fun _ => "", by decide⟩

/-! ## Theorems -/

/-- C2: for every value v and every string u, recognised as a unit symbol or not,
`convertValue v u u` is v. -/
theorem C2_same_unit_identity (v : ℚ) (u : String) : convertValue v u u = v := by
  simp [convertValue]

/-- C3: on each of the fourteen wired (source, target) pairs and every value v, `convertValue`
returns what the conversion function of that direction returns on v. -/
theorem C3_wired_pairs_dispatch (v : ℚ) :
    convertValue v "ft" "m" = feetToMeters v ∧
    convertValue v "m" "ft" = metersToFeet v ∧
    convertValue v "in" "mm" = inchesToMm v ∧
    convertValue v "mm" "in" = mmToInches v ∧
    convertValue v "psi" "MPa" = psiToMPa v ∧
    convertValue v "MPa" "psi" = mpaToPsi v ∧
    convertValue v "°F" "°C" = fahrenheitToCelsius v ∧
    convertValue v "°C" "°F" = celsiusToFahrenheit v ∧
    convertValue v "bbl/d" "m³/d" = bblToM3 v ∧
    convertValue v "m³/d" "bbl/d" = m3ToBbl v ∧
    convertValue v "HP" "kW" = hpToKw v ∧
    convertValue v "kW" "HP" = kwToHp v ∧
    convertValue v "lbs" "N" = lbsToNewtons v ∧
    convertValue v "N" "lbs" = newtonsToLbs v := by
  refine ⟨?_, ?_, ?_, ?_, ?_, ?_, ?_, ?_, ?_, ?_, ?_, ?_, ?_, ?_⟩ <;> simp [convertValue]

/-- C4: for every value v and every pair of strings that is not one of the fourteen wired
pairs, `convertValue` returns v unchanged (the function is total, so it does not fail). -/
theorem C4_unwired_pair_passthrough (v : ℚ) (fromUnit toUnit : String)
    (h : (fromUnit, toUnit) ∉ wiredPairs) : convertValue v fromUnit toUnit = v := by
  simp only [wiredPairs, List.mem_cons, List.mem_singleton, List.not_mem_nil, Prod.mk.injEq,
    not_or, or_false] at h
  obtain ⟨h1, h2, h3, h4, h5, h6, h7, h8, h9, h10, h11, h12, h13, h14⟩ := h
  unfold convertValue
  simp only [h1, h2, h3, h4, h5, h6, h7, h8, h9, h10, h11, h12, h13, h14, if_false, ite_self]

/-- Witness for C4: the unknown symbols of the spec's example with v = 5, the density label
symbols, wrong-case spellings of the pressure symbols, and a cross-quantity pair. -/
theorem C4_unwired_pair_passthrough_witness :
    convertValue 5 "lbft3" "kgm3" = 5 ∧
    convertValue 7 "lb/ft³" "kg/m³" = 7 ∧ convertValue 7 "kg/m³" "lb/ft³" = 7 ∧
    convertValue 1000 "PSI" "mpa" = 1000 ∧ convertValue 1000 "psi" "mpa" = 1000 ∧
    convertValue 1000 "PSI" "MPa" = 1000 ∧
    convertValue 100 "ft" "mm" = 100 :=
  ⟨C4_unwired_pair_passthrough 5 "lbft3" "kgm3" (by decide),
   C4_unwired_pair_passthrough 7 "lb/ft³" "kg/m³" (by decide),
   C4_unwired_pair_passthrough 7 "kg/m³" "lb/ft³" (by decide),
   C4_unwired_pair_passthrough 1000 "PSI" "mpa" (by decide),
   C4_unwired_pair_passthrough 1000 "psi" "mpa" (by decide),
   C4_unwired_pair_passthrough 1000 "PSI" "MPa" (by decide),
   C4_unwired_pair_passthrough 100 "ft" "mm" (by decide)⟩

/-- C6: `convertValue(100, "ft", "m")` is 30.48 and `convertValue(30.48, "m", "ft")` is 100. -/
theorem C6_feet_meters_examples :
    convertValue 100 "ft" "m" = 30.48 ∧ convertValue 30.48 "m" "ft" = 100 := by
  constructor
  · simp [convertValue, feetToMeters]; norm_num
  · simp [convertValue, metersToFeet]; norm_num

/-- C7: `convertValue(212, "°F", "°C")` is 100 and `convertValue(0, "°C", "°F")` is 32. -/
theorem C7_temperature_examples :
    convertValue 212 "°F" "°C" = 100 ∧ convertValue 0 "°C" "°F" = 32 := by
  constructor
  · simp [convertValue, fahrenheitToCelsius]; norm_num
  · simp [convertValue, celsiusToFahrenheit]

/-- C8: `convertValue(1000, "psi", "MPa")` lies within 0.00005 of 6.8947, and converting that
result back from "MPa" to "psi" gives 1000. -/
theorem C8_pressure_example :
    |convertValue 1000 "psi" "MPa" - 6.8947| < 0.00005 ∧
    convertValue (convertValue 1000 "psi" "MPa") "MPa" "psi" = 1000 := by
  have h : convertValue 1000 "psi" "MPa" = 1000 / 145.038 := by
    simp [convertValue, psiToMPa]
  have h2 : ∀ w : ℚ, convertValue w "MPa" "psi" = w * 145.038 := by
    intro w; simp [convertValue, mpaToPsi]
  rw [h2, h]
  constructor
  · rw [abs_lt]; constructor <;> norm_num
  · norm_num

/-- C9: for each of the nine quantity kinds `getUnitLabel` returns the canonical symbol of
the selected system, as listed for the metric and for the imperial system; in particular the
result for a recognised kind is a string that is not empty. -/
theorem C9_label_of_recognised_kind :
    (getUnitLabel "depth" true = .str "m" ∧ getUnitLabel "diameter" true = .str "mm" ∧
     getUnitLabel "pressure" true = .str "MPa" ∧ getUnitLabel "temperature" true = .str "°C" ∧
     getUnitLabel "flow" true = .str "m³/d" ∧ getUnitLabel "density" true = .str "kg/m³" ∧
     getUnitLabel "power" true = .str "kW" ∧ getUnitLabel "force" true = .str "N" ∧
     getUnitLabel "weight" true = .str "kg") ∧
    (getUnitLabel "depth" false = .str "ft" ∧ getUnitLabel "diameter" false = .str "in" ∧
     getUnitLabel "pressure" false = .str "psi" ∧
     getUnitLabel "temperature" false = .str "°F" ∧
     getUnitLabel "flow" false = .str "bbl/d" ∧ getUnitLabel "density" false = .str "lb/ft³" ∧
     getUnitLabel "power" false = .str "HP" ∧ getUnitLabel "force" false = .str "lbs" ∧
     getUnitLabel "weight" false = .str "lbs") ∧
    (∀ unitType ∈ quantityKinds, ∀ isMetric : Bool,
      ∃ s : String, getUnitLabel unitType isMetric = .str s ∧ s ≠ "") := by
  refine ⟨by decide, by decide, ?_⟩
  intro unitType h isMetric
  simp only [quantityKinds, List.mem_cons, List.mem_singleton, List.not_mem_nil,
    or_false] at h
  rcases h with h | h | h | h | h | h | h | h | h <;> subst h <;> cases isMetric
  all_goals exact ⟨_, rfl, by decide⟩

/-- A key that is neither one of the nine quantity kinds nor the name of a property of
`Object.prototype` names no property of a label table: the read gives `undefined`. -/
theorem getProperty_unknown_key (own : List (String × JSValue)) (key : String)
    (hown : own.lookup key = none) (hproto : objectPrototype.lookup key = none) :
    getProperty own key = .undefined := by
  simp [getProperty, hown, hproto]

/-- None of the four tables has an own property under a key outside the nine kinds. -/
theorem tables_lookup_unknown_key (key : String) (h : key ∉ quantityKinds) :
    metricUnits.lookup key = none ∧ imperialUnits.lookup key = none ∧
    metricTextCN.lookup key = none ∧ imperialTextCN.lookup key = none := by
  simp only [quantityKinds, List.mem_cons, List.mem_singleton, List.not_mem_nil,
    or_false, not_or] at h
  obtain ⟨h1, h2, h3, h4, h5, h6, h7, h8, h9⟩ := h
  simp only [List.lookup_eq_none_iff, metricUnits, imperialUnits, metricTextCN,
    imperialTextCN, List.mem_cons, List.mem_singleton, List.not_mem_nil, or_false]
  refine ⟨?_, ?_, ?_, ?_⟩ <;> intro p hp <;>
    rcases hp with hp | hp | hp | hp | hp | hp | hp | hp | hp <;> subst hp <;>
    simp [h1, h2, h3, h4, h5, h6, h7, h8, h9]

/-- For a key that is neither one of the nine quantity kinds nor the name of a property of
`Object.prototype`, `getUnitLabel` and `getUnitDisplayText` return the empty string. -/
theorem labels_empty_on_unknown_uninherited_key (key : String) (isMetric isChinese : Bool)
    (h : key ∉ quantityKinds) (hproto : objectPrototype.lookup key = none) :
    getUnitLabel key isMetric = .str "" ∧
    getUnitDisplayText key isMetric isChinese = .str "" := by
  obtain ⟨h1, h2, h3, h4⟩ := tables_lookup_unknown_key key h
  have e1 := getProperty_unknown_key metricUnits key h1 hproto
  have e2 := getProperty_unknown_key imperialUnits key h2 hproto
  have e3 := getProperty_unknown_key metricTextCN key h3 hproto
  have e4 := getProperty_unknown_key imperialTextCN key h4 hproto
  cases isMetric <;> cases isChinese <;>
    simp [getUnitLabel, getUnitDisplayText, e1, e2, e3, e4, JSValue.or, JSValue.toBoolean]

/-- The keys "bogus", "" and "Depth" give the empty string in both functions. -/
theorem labels_empty_on_unknown_uninherited_key_examples :
    (getUnitLabel "bogus" true = .str "" ∧ getUnitDisplayText "bogus" true true = .str "") ∧
    (getUnitLabel "" false = .str "" ∧ getUnitDisplayText "" false true = .str "") ∧
    (getUnitLabel "Depth" true = .str "" ∧ getUnitDisplayText "Depth" false false = .str "") :=
  ⟨labels_empty_on_unknown_uninherited_key "bogus" true true (by decide) (by decide),
   labels_empty_on_unknown_uninherited_key "" false true (by decide) (by decide),
   ⟨(labels_empty_on_unknown_uninherited_key "Depth" true true (by decide) (by decide)).1,
    (labels_empty_on_unknown_uninherited_key "Depth" false false (by decide) (by decide)).2⟩⟩

/-- C10, at the failing input: "toString" and "constructor" are not among the nine quantity
kinds, yet `getUnitLabel` and `getUnitDisplayText` return for them the object inherited from
`Object.prototype` (truthy, so the fallback `|| ""` is not taken) and not the empty string. -/
theorem C10_inherited_key_returns_object :
    "toString" ∉ quantityKinds ∧ "constructor" ∉ quantityKinds ∧
    getUnitLabel "toString" true = .builtin "Object.prototype.toString" ∧
    getUnitLabel "toString" false = .builtin "Object.prototype.toString" ∧
    getUnitLabel "constructor" true = .builtin "Object" ∧
    getUnitLabel "constructor" false = .builtin "Object" ∧
    getUnitDisplayText "toString" true true = .builtin "Object.prototype.toString" ∧
    getUnitDisplayText "toString" false true = .builtin "Object.prototype.toString" ∧
    getUnitDisplayText "toString" true false = .builtin "Object.prototype.toString" ∧
    getUnitDisplayText "constructor" false false = .builtin "Object" ∧
    getUnitLabel "toString" true ≠ .str "" ∧
    getUnitDisplayText "toString" true true ≠ .str "" := by
  decide

/-- C11: for every key and every metric flag, `getUnitDisplayText` with the non-Chinese
language returns what `getUnitLabel` returns for that key and system, the raw unit symbol; for
power in the imperial system that is "HP". -/
theorem C11_display_text_delegates_to_label :
    (∀ (unitType : String) (isMetric : Bool),
      getUnitDisplayText unitType isMetric false = getUnitLabel unitType isMetric) ∧
    getUnitDisplayText "power" false false = .str "HP" ∧
    getUnitDisplayText "depth" false false = .str "ft" := by
  refine ⟨?_, by decide, by decide⟩
  intro unitType isMetric
  cases isMetric <;> simp [getUnitDisplayText]

/-- C16, the claim fails in the metric system: there the label of weight is "kg" and the label
of force is "N". -/
theorem C16_metric_weight_differs_from_force :
    getUnitLabel "weight" true = .str "kg" ∧ getUnitLabel "force" true = .str "N" ∧
    ¬ (∀ isMetric : Bool, getUnitLabel "weight" isMetric = getUnitLabel "force" isMetric) := by
  refine ⟨by decide, by decide, ?_⟩
  intro h
  exact absurd (h true) (by decide)

/-- C16 as amended: in the imperial system weight has the label of force, "lbs"; in the
metric system weight has the label "kg" of its own and force has "N". -/
theorem C16_weight_shares_force_label_imperial_only :
    getUnitLabel "weight" false = getUnitLabel "force" false ∧
    getUnitLabel "weight" false = .str "lbs" ∧
    getUnitLabel "weight" true = .str "kg" ∧ getUnitLabel "force" true = .str "N" := by
  decide

/-! ### Facts about `convertValue` shared by the theorems below -/

/-- C18: the labels of a kind fed into the dispatcher. For depth, diameter, pressure,
temperature, flow, power and force, converting from the imperial label to the metric label is
the imperial-to-metric conversion of the kind and the other direction is its inverse; for
density and weight both calls return the value unchanged, so a density value is not converted
although `lbft3ToKgm3` and `kgm3ToLbft3` exist. -/
theorem C18_labels_feed_dispatcher (v : ℚ) :
    (∃ s t, getUnitLabel "depth" false = .str s ∧ getUnitLabel "depth" true = .str t ∧
      convertValue v s t = feetToMeters v ∧ convertValue v t s = metersToFeet v) ∧
    (∃ s t, getUnitLabel "diameter" false = .str s ∧ getUnitLabel "diameter" true = .str t ∧
      convertValue v s t = inchesToMm v ∧ convertValue v t s = mmToInches v) ∧
    (∃ s t, getUnitLabel "pressure" false = .str s ∧ getUnitLabel "pressure" true = .str t ∧
      convertValue v s t = psiToMPa v ∧ convertValue v t s = mpaToPsi v) ∧
    (∃ s t, getUnitLabel "temperature" false = .str s ∧
      getUnitLabel "temperature" true = .str t ∧
      convertValue v s t = fahrenheitToCelsius v ∧
      convertValue v t s = celsiusToFahrenheit v) ∧
    (∃ s t, getUnitLabel "flow" false = .str s ∧ getUnitLabel "flow" true = .str t ∧
      convertValue v s t = bblToM3 v ∧ convertValue v t s = m3ToBbl v) ∧
    (∃ s t, getUnitLabel "power" false = .str s ∧ getUnitLabel "power" true = .str t ∧
      convertValue v s t = hpToKw v ∧ convertValue v t s = kwToHp v) ∧
    (∃ s t, getUnitLabel "force" false = .str s ∧ getUnitLabel "force" true = .str t ∧
      convertValue v s t = lbsToNewtons v ∧ convertValue v t s = newtonsToLbs v) ∧
    (∃ s t, getUnitLabel "density" false = .str s ∧ getUnitLabel "density" true = .str t ∧
      convertValue v s t = v ∧ convertValue v t s = v ∧
      (v ≠ 0 → convertValue v s t ≠ lbft3ToKgm3 v ∧ convertValue v t s ≠ kgm3ToLbft3 v)) ∧
    (∃ s t, getUnitLabel "weight" false = .str s ∧ getUnitLabel "weight" true = .str t ∧
      convertValue v s t = v ∧ convertValue v t s = v) := by
  refine ⟨⟨_, _, rfl, rfl, ?_, ?_⟩, ⟨_, _, rfl, rfl, ?_, ?_⟩, ⟨_, _, rfl, rfl, ?_, ?_⟩,
    ⟨_, _, rfl, rfl, ?_, ?_⟩, ⟨_, _, rfl, rfl, ?_, ?_⟩, ⟨_, _, rfl, rfl, ?_, ?_⟩,
    ⟨_, _, rfl, rfl, ?_, ?_⟩, ⟨_, _, rfl, rfl, ?_, ?_, ?_⟩, ⟨_, _, rfl, rfl, ?_, ?_⟩⟩
  case refine_17 =>
    intro hv
    have e1 : convertValue v "lb/ft³" "kg/m³" = v := by simp [convertValue]
    have e2 : convertValue v "kg/m³" "lb/ft³" = v := by simp [convertValue]
    rw [e1, e2]
    unfold lbft3ToKgm3 kgm3ToLbft3
    constructor
    · intro h
      apply hv
      linarith
    · intro h
      have h3 : v * 16.018 = v := by
        rw [eq_div_iff (by norm_num)] at h
        exact h
      apply hv
      linarith
  all_goals simp [convertValue]

/-- The ladder over a table whose pairs are distinct does not depend on the order of the
table: at most one test matches. -/
theorem dispatchLadder_perm {t₁ t₂ : List ((String × String) × (ℚ → ℚ))} (hp : t₁.Perm t₂)
    (hn : (t₁.map Prod.fst).Nodup) (v : ℚ) (s t : String) :
    dispatchLadder t₁ v s t = dispatchLadder t₂ v s t := by
  induction hp with
  | nil => rfl
  | cons x _ ih =>
    obtain ⟨⟨a, b⟩, f⟩ := x
    simp only [List.map_cons, List.nodup_cons] at hn
    simp only [dispatchLadder, ih hn.2]
  | swap x y l =>
    obtain ⟨⟨a, b⟩, f⟩ := x
    obtain ⟨⟨c, d⟩, g⟩ := y
    simp only [List.map_cons, List.nodup_cons, List.mem_cons, not_or, Prod.mk.injEq] at hn
    have hne : ¬ (c = a ∧ d = b) := hn.1.1
    simp only [dispatchLadder]
    by_cases h1 : s = a ∧ t = b
    · have h2 : ¬ (s = c ∧ t = d) := fun h2 =>
        hne ⟨h2.1.symm.trans h1.1, h2.2.symm.trans h1.2⟩
      simp only [if_pos h1, if_neg h2]
    · simp only [if_neg h1]
  | trans h₁ _ ih₁ ih₂ =>
    rw [ih₁ hn, ih₂ ((h₁.map Prod.fst).nodup_iff.mp hn)]

/-- The function `convertValue` is the dispatcher over the table of its fourteen tests. -/
theorem convertValue_eq_dispatchWith (v : ℚ) (s t : String) :
    convertValue v s t = dispatchWith wiredTable v s t := by
  simp only [convertValue, dispatchWith, wiredTable, dispatchLadder]

/-- C15: the fourteen pairs tested by `convertValue` are pairwise distinct, and two of them
that share a unit symbol are pairs of one quantity kind (the source groups the pairs by kind:
the pairs at the positions 2i and 2i+1 are the two directions of the kind number i); so at
most one test matches any input, and a dispatcher that tests the same fourteen pairs in any
other order returns what `convertValue` returns, for every value and every pair of strings. -/
theorem C15_check_order_irrelevant :
    wiredPairs.Nodup ∧
    (∀ i j : Fin 14,
      shareSymbol (wiredPairs.getD i ("", "")) (wiredPairs.getD j ("", "")) = true →
      i.val / 2 = j.val / 2) ∧
    (∀ (s t : String) (i j : Fin 14), wiredPairs.getD i ("", "") = (s, t) →
      wiredPairs.getD j ("", "") = (s, t) → i = j) ∧
    wiredTable.map Prod.fst = wiredPairs ∧
    (∀ table : List ((String × String) × (ℚ → ℚ)), table.Perm wiredTable →
      ∀ (v : ℚ) (s t : String), dispatchWith table v s t = convertValue v s t) := by
  have hnd : wiredPairs.Nodup := by decide
  refine ⟨hnd, ?_, ?_, rfl, ?_⟩
  · decide
  · intro s t i j hi hj
    have h := hi.trans hj.symm
    clear hi hj
    revert i j
    decide
  · intro table hp v s t
    have hn : (wiredTable.map Prod.fst).Nodup := hnd
    rw [convertValue_eq_dispatchWith]
    unfold dispatchWith
    rw [dispatchLadder_perm hp.symm hn v s t]

/-- Witness for C15: the reversed table is a reordering of the table, and the dispatcher that
runs the fourteen tests in the reverse of the source order agrees with `convertValue` on a
wired pair of each direction and on an unwired pair. -/
theorem C15_check_order_irrelevant_witness :
    wiredTable.reverse.Perm wiredTable ∧
    dispatchWith wiredTable.reverse 100 "ft" "m" = convertValue 100 "ft" "m" ∧
    dispatchWith wiredTable.reverse 0 "°C" "°F" = convertValue 0 "°C" "°F" ∧
    dispatchWith wiredTable.reverse 5 "lbft3" "kgm3" = convertValue 5 "lbft3" "kgm3" :=
  ⟨List.reverse_perm wiredTable,
   C15_check_order_irrelevant.2.2.2.2 wiredTable.reverse (List.reverse_perm wiredTable)
     100 "ft" "m",
   C15_check_order_irrelevant.2.2.2.2 wiredTable.reverse (List.reverse_perm wiredTable)
     0 "°C" "°F",
   C15_check_order_irrelevant.2.2.2.2 wiredTable.reverse (List.reverse_perm wiredTable)
     5 "lbft3" "kgm3"⟩

/-! ### `formatValue` -/

/-- The integer part of a finite `decimals` passes the range test of `toFixed` exactly when
`decimals` lies above -1 and below the maximum of the engine plus 1. -/
theorem toInteger_in_range_iff (e : Engine) (q : ℚ) :
    (¬ ((if 0 ≤ q then ⌊q⌋ else -⌊-q⌋) < 0 ∨
        (e.maxFractionDigits : ℤ) < (if 0 ≤ q then ⌊q⌋ else -⌊-q⌋))) ↔
      (-1 < q ∧ q < e.maxFractionDigits + 1) := by
  by_cases h : 0 ≤ q
  · simp only [if_pos h, not_or, not_lt]
    have h1 : (0 : ℤ) ≤ ⌊q⌋ := Int.floor_nonneg.mpr h
    have h2 : ⌊q⌋ ≤ (e.maxFractionDigits : ℤ) ↔ q < e.maxFractionDigits + 1 := by
      rw [← Int.lt_add_one_iff, Int.floor_lt]
      push_cast
      rfl
    constructor
    · intro hh
      exact ⟨by linarith, h2.mp hh.2⟩
    · intro hh
      exact ⟨h1, h2.mpr hh.2⟩
  · simp only [if_neg h, not_or, not_lt]
    have hq : q < 0 := not_le.mp h
    have h1 : (0 : ℤ) ≤ ⌊-q⌋ := Int.floor_nonneg.mpr (by linarith)
    have h2 : ⌊-q⌋ ≤ 0 ↔ -1 < q := by
      rw [← Int.lt_add_one_iff, Int.floor_lt]
      push_cast
      constructor <;> intro hh <;> linarith
    have h3 : (0 : ℚ) ≤ (e.maxFractionDigits : ℚ) := Nat.cast_nonneg _
    constructor
    · intro hh
      exact ⟨h2.mp (by omega), by linarith⟩
    · intro hh
      have := h2.mpr hh.1
      constructor <;> omega

/-- With a count of digits in the accepted range `toFixed` returns a string, and "NaN" for
NaN. -/
theorem toFixed_ok (e : Engine) (x : JSNumber) (f : ℤ) (d : JSNumber)
    (hd : toInteger d = some f) (hf : ¬ (f < 0 ∨ (e.maxFractionDigits : ℤ) < f)) :
    ∃ s, toFixed e x d = .ok s ∧ (x = .nan → s = "NaN") := by
  unfold toFixed
  rw [hd]
  simp only [hf, if_false]
  cases x with
  | nan => exact ⟨_, rfl, fun _ => rfl⟩
  | posInf => exact ⟨_, rfl, fun h => by cases h⟩
  | negInf => exact ⟨_, rfl, fun h => by cases h⟩
  | finite q =>
    simp only
    split_ifs <;> exact ⟨_, rfl, fun h => by cases h⟩

/-- With valid `decimals`, `formatValue` returns a string, and "NaN" when `parseFloat` finds
no number in `value`. -/
theorem formatValue_ok (e : Engine) (v : JSPrimitive) (d : Option JSNumber)
    (h : validDecimals e d) :
    ∃ s, formatValue e v d = .ok s ∧ (parseFloat v = .nan → s = "NaN") := by
  unfold formatValue
  have h20 := e.twenty_le
  match d, h with
  | none, _ =>
    exact toFixed_ok e _ 2 _ (by simp [toInteger]) (by omega)
  | some .nan, _ =>
    exact toFixed_ok e _ 0 _ rfl (by omega)
  | some (.finite q), h =>
    exact toFixed_ok e _ _ _ rfl ((toInteger_in_range_iff e q).mpr h)

/-- With `decimals` that is not valid, `formatValue` throws a RangeError, whatever the
value. -/
theorem formatValue_rangeError (e : Engine) (v : JSPrimitive) (d : Option JSNumber)
    (h : ¬ validDecimals e d) : formatValue e v d = .error .rangeError := by
  unfold formatValue
  match d, h with
  | none, h => exact absurd trivial h
  | some .nan, h => exact absurd trivial h
  | some .posInf, _ => rfl
  | some .negInf, _ => rfl
  | some (.finite q), h =>
    have h2 := mt (toInteger_in_range_iff e q).mp h
    simp only [not_not] at h2
    simp only [toFixed, toInteger, h2, if_true]

/-- The method `toFixed` on a number from 0 up to 10^21 with a natural count of digits in
the range. -/
theorem toFixed_natCast (e : Engine) (q : ℚ) (f : ℕ) (hf : f ≤ e.maxFractionDigits)
    (h0 : 0 ≤ q) (h1 : q < 10 ^ 21) :
    toFixed e (.finite q) (.finite f) = .ok (fixedDigits ⌊q * 10 ^ f + 1 / 2⌋.toNat f) := by
  have hi : toInteger (.finite (f : ℚ)) = some (f : ℤ) := by
    simp [toInteger]
  have hr : ¬ ((f : ℤ) < 0 ∨ (e.maxFractionDigits : ℤ) < f) := by omega
  simp only [toFixed, hi, hr, if_false, not_lt.mpr h0, not_le.mpr h1, Int.toNat_ofNat,
    String.empty_append]


/-- C13: with `decimals` omitted `formatValue` uses 2 decimal places: for every value it
returns what it returns with `decimals` 2; `formatValue(3.1)` is "3.10" and
`formatValue(3.14159, 2)` is "3.14". -/
theorem C13_default_two_decimals (e : Engine) :
    (∀ v : JSPrimitive, formatValue e v none = formatValue e v (some (.finite 2))) ∧
    formatValue e (.num (.finite 3.1)) none = .ok "3.10" ∧
    formatValue e (.num (.finite 3.14159)) (some (.finite 2)) = .ok "3.14" := by
  have h20 : 2 ≤ e.maxFractionDigits := le_trans (by decide) e.twenty_le
  have h1 := toFixed_natCast e 3.1 2 h20 (by norm_num) (by norm_num)
  have h2 := toFixed_natCast e 3.14159 2 h20 (by norm_num) (by norm_num)
  have f1 : ⌊(3.1 : ℚ) * 10 ^ 2 + 1 / 2⌋ = 310 := by
    rw [Int.floor_eq_iff]; norm_num
  have f2 : ⌊(3.14159 : ℚ) * 10 ^ 2 + 1 / 2⌋ = 314 := by
    rw [Int.floor_eq_iff]; norm_num
  have d1 : fixedDigits (310 : ℤ).toNat 2 = "3.10" := by decide
  have d2 : fixedDigits (314 : ℤ).toNat 2 = "3.14" := by decide
  rw [f1, d1] at h1
  rw [f2, d2] at h2
  refine ⟨fun v => rfl, ?_, ?_⟩
  · simpa [formatValue, parseFloat] using h1
  · simpa [formatValue, parseFloat] using h2

/-- C14, the claim fails: `formatValue` does not return a string for every `decimals`. With
the count -1, and with the count 1000, `toFixed` throws a RangeError, in an engine with the
limit of 20 digits as in one with the limit of 100, for a numeric and for a non-numeric
value. -/
theorem C14_formatValue_throws_on_bad_decimals :
    formatValue engine20 (.num (.finite 1)) (some (.finite (-1))) = .error .rangeError ∧
    formatValue engine100 (.num (.finite 1)) (some (.finite (-1))) = .error .rangeError ∧
    formatValue engine20 (.num (.finite 1)) (some (.finite 1000)) = .error .rangeError ∧
    formatValue engine100 (.num (.finite 1)) (some (.finite 1000)) = .error .rangeError ∧
    formatValue engine100 (.str "abc") (some (.finite (-1))) = .error .rangeError ∧
    ¬ (∀ (e : Engine) (v : JSPrimitive) (d : Option JSNumber),
        ∃ s, formatValue e v d = .ok s) := by
  have b1 : ¬ validDecimals engine20 (some (.finite (-1))) := by
    simp [validDecimals]
  have b2 : ¬ validDecimals engine100 (some (.finite (-1))) := by
    simp [validDecimals]
  have b3 : ¬ validDecimals engine20 (some (.finite 1000)) := by
    simp [validDecimals, engine20]; norm_num
  have b4 : ¬ validDecimals engine100 (some (.finite 1000)) := by
    simp [validDecimals, engine100]; norm_num
  refine ⟨formatValue_rangeError _ _ _ b1, formatValue_rangeError _ _ _ b2,
    formatValue_rangeError _ _ _ b3, formatValue_rangeError _ _ _ b4,
    formatValue_rangeError _ _ _ b2, ?_⟩
  intro h
  obtain ⟨s, hs⟩ := h engine20 (.num (.finite 1)) (some (.finite (-1)))
  rw [formatValue_rangeError _ _ _ b1] at hs
  cases hs

/-- C14 as amended: for every value, numeric or not, and every `decimals` that is omitted,
NaN, or a finite number whose integer part lies between 0 and the maximum count of the
engine, `formatValue` returns a string, and that string is "NaN" when the value is not
numeric (when `parseFloat` finds no number in it). -/
theorem C14_formatValue_returns_string (e : Engine) (v : JSPrimitive)
    (d : Option JSNumber) (h : validDecimals e d) :
    ∃ s, formatValue e v d = .ok s ∧ (parseFloat v = .nan → s = "NaN") :=
  formatValue_ok e v d h

/-- Witness for C14 as amended: the text "abc" with `decimals` omitted and with the count
20.9, whose integer part is 20; `undefined`, `null`, a boolean, the empty text and the text
"abc" are not numeric. -/
theorem C14_formatValue_returns_string_witness :
    (∃ s, formatValue engine20 (.str "abc") none = .ok s ∧
      (parseFloat (.str "abc") = .nan → s = "NaN")) ∧
    (validDecimals engine20 (some (.finite 20.9)) ∧
      ∃ s, formatValue engine20 (.str "abc") (some (.finite 20.9)) = .ok s ∧
        (parseFloat (.str "abc") = .nan → s = "NaN")) ∧
    parseFloat (.str "abc") = .nan ∧ parseFloat (.str "") = .nan ∧
    parseFloat .undefined = .nan ∧ parseFloat .null = .nan ∧
    parseFloat (.bool true) = .nan ∧
    formatValue engine20 (.str "abc") none = .ok "NaN" := by
  have hv : validDecimals engine20 (some (.finite 20.9)) := by
    simp [validDecimals, engine20]; norm_num
  have h1 := C14_formatValue_returns_string engine20 (.str "abc") none trivial
  refine ⟨h1,
    ⟨hv, C14_formatValue_returns_string engine20 (.str "abc") (some (.finite 20.9)) hv⟩,
    by decide, by decide, by decide, by decide, by decide, ?_⟩
  obtain ⟨s, hs, hn⟩ := h1
  rw [hn (by decide)] at hs
  exact hs

end UnitUtils
